import Mathlib

/-!
Shallow embedding of `examples/multiconformers/train_subword_multiconformers.py`
from the TiramisuASR repository.

The script is pure orchestration glue: it parses CLI arguments, sets up a
distribution strategy, builds two speech featurizers, loads or builds a
subword vocabulary, builds train/eval datasets (tfrecord or in-memory
backend), constructs the model and optimizer inside the strategy scope,
compiles the trainer and runs fit.  Every external library object
(featurizer, dataset, trainer, model, optimizer, strategy) is opaque in the
source, so it is embedded here as a record of the arguments the script
passes to its constructor.  The run itself is embedded as a monadic program
that logs every external call as an event (so ordering and scope claims can
be stated) and that can stop early with an error injected by the abstract
environment (so error-propagation claims can be stated).
-/

/-- Python dictionary contents: an association list from string keys to
string values (only string-valued entries of `speech_config` matter here). -/
abbrev Dict := List (String × String)

/-- Python dictionary item assignment `d[k] = v`. -/
def Dict.set (d : Dict) (k v : String) : Dict :=
  (k, v) :: d.eraseP (fun p => p.1 == k)

/-- Python dictionary lookup `d[k]` (as an option). -/
def Dict.get (d : Dict) (k : String) : Option String :=
  (d.find? (fun p => p.1 == k)).map Prod.snd

/-- A tiny heap of dictionary objects, indexed by reference.  Python
variables bound to a dictionary hold a reference; assigning through any
alias mutates the single heap cell. -/
structure Heap where
  cells : List Dict

/-- Dereference a dictionary reference. -/
def Heap.read (h : Heap) (r : Nat) : Dict := h.cells.getD r []

/-- Overwrite the dictionary stored at a reference. -/
def Heap.write (h : Heap) (r : Nat) (d : Dict) : Heap := Heap.mk (h.cells.set r d)

/-- Item assignment through a reference: `ref[k] = v`. -/
def Heap.setItem (h : Heap) (r : Nat) (k v : String) : Heap :=
  h.write r (Dict.set (h.read r) k v)

/-- The `dataset_config` section of the loaded YAML configuration. -/
structure DatasetCfg where
  train_paths : List String
  eval_paths : List String
  tfrecords_dir : String
deriving DecidableEq

/-- The `optimizer_config` section of the loaded configuration. -/
structure OptimizerCfg where
  warmup_steps : Nat
  beta1 : Rat
  beta2 : Rat
  epsilon : Rat
deriving DecidableEq

/-- The `learning_config` section of the loaded configuration.  The
`augmentations`, `running_config` and `gradpolicy` entries are opaque values
the script passes on verbatim, so they are embedded as plain tokens. -/
structure LearningCfg where
  dataset_config : DatasetCfg
  augmentations : String
  running_config : String
  optimizer_config : OptimizerCfg
  gradpolicy : String
deriving DecidableEq

/-- The `model_config` section: `dmodel` is read explicitly by the script,
the remaining entries are splatted into the model constructor. -/
structure ModelCfg where
  dmodel : Nat
  rest : List (String × String)
deriving DecidableEq

/-- The configuration object returned by `UserConfig(DEFAULT_YAML,
args.config, learning=True)`.  `speech_config` holds the initial contents of
the one dictionary the script mutates. -/
structure ConfigData where
  speech_config : Dict
  decoder_config : String
  learning_config : LearningCfg
  model_config : ModelCfg
deriving DecidableEq

/-- A speech featurizer as constructed by the script: either
`NumpySpeechFeaturizer(cfg)` or `TFSpeechFeaturizer(cfg)`, recording the
contents of the `speech_config` dictionary at construction time. -/
inductive SpeechFeaturizer where
  | numpy (speech_config : Dict)
  | tfSF (speech_config : Dict)
deriving DecidableEq

/-- Contents of the speech-config dictionary a featurizer was built from. -/
def SpeechFeaturizer.sconfig : SpeechFeaturizer → Dict
  | SpeechFeaturizer.numpy d => d
  | SpeechFeaturizer.tfSF d => d

/-- A subword text featurizer: either `SubwordFeaturizer.load_from_file`
with the given decoder config and prefix argument, or
`SubwordFeaturizer.build_from_corpus` with the given corpus files. -/
inductive TextFeaturizer where
  | loaded (decoder_config : String) (subwordsPfx : Option String)
  | built (decoder_config : String) (corpus_files : List String)
deriving DecidableEq

/-- A dataset as constructed by the script: `MultiConformersTFRecordDataset`
or `MultiConformersSliceDataset`, recording exactly the arguments passed
(the `augmentations` field is `none` when the script omits the argument). -/
inductive Dataset where
  | tfrecord (data_paths : List String) (tfrecords_dir : String)
      (lms lgs : SpeechFeaturizer) (txt : TextFeaturizer) (stage : String)
      (augmentations : Option String) (cache shuffle : Bool)
  | slice (lms lgs : SpeechFeaturizer) (txt : TextFeaturizer)
      (data_paths : List String) (augmentations : Option String)
      (stage : String) (cache shuffle : Bool)
deriving DecidableEq

/-- Whether the dataset uses the tfrecord backend. -/
def Dataset.isTFRecord : Dataset → Bool
  | Dataset.tfrecord .. => true
  | Dataset.slice .. => false

/-- The `data_paths` argument of a dataset. -/
def Dataset.dataPaths : Dataset → List String
  | Dataset.tfrecord p _ _ _ _ _ _ _ _ => p
  | Dataset.slice _ _ _ p _ _ _ _ => p

/-- The text featurizer a dataset was constructed with. -/
def Dataset.txt : Dataset → TextFeaturizer
  | Dataset.tfrecord _ _ _ _ t _ _ _ _ => t
  | Dataset.slice _ _ t _ _ _ _ _ => t

/-- The `augmentations` argument a dataset was constructed with
(`none` when the argument was omitted at the call site). -/
def Dataset.augm : Dataset → Option String
  | Dataset.tfrecord _ _ _ _ _ _ a _ _ => a
  | Dataset.slice _ _ _ _ a _ _ _ => a

/-- The `cache` argument of a dataset. -/
def Dataset.cacheFlag : Dataset → Bool
  | Dataset.tfrecord _ _ _ _ _ _ _ c _ => c
  | Dataset.slice _ _ _ _ _ _ c _ => c

/-- The `shuffle` argument of a dataset. -/
def Dataset.shuffleFlag : Dataset → Bool
  | Dataset.tfrecord _ _ _ _ _ _ _ _ s => s
  | Dataset.slice _ _ _ _ _ _ _ s => s

/-- The `stage` argument of a dataset. -/
def Dataset.stageOf : Dataset → String
  | Dataset.tfrecord _ _ _ _ _ s _ _ _ => s
  | Dataset.slice _ _ _ _ _ s _ _ => s

/-- The distribution strategy returned by `setup_strategy(devices)`. -/
structure Strategy where
  devices : List Int
deriving DecidableEq

/-- The `MultiConformersTrainer`, recording the arguments of its
constructor. -/
structure Trainer where
  running_config : String
  text_featurizer : TextFeaturizer
  strategy : Strategy
deriving DecidableEq

/-- The `TransformerSchedule` learning-rate schedule, recording its
constructor arguments. -/
structure TransformerSchedule where
  d_model : Nat
  warmup_steps : Nat
  max_lr : Rat
deriving DecidableEq

/-- The `tf.keras.optimizers.Adam` optimizer, recording its constructor
arguments. -/
structure AdamOptimizer where
  schedule : TransformerSchedule
  beta_1 : Rat
  beta_2 : Rat
  epsilon : Rat
deriving DecidableEq

/-- The `MultiConformers` model, recording the splatted `model_config` and
the `vocabulary_size` keyword argument. -/
structure MultiConformers where
  model_config : ModelCfg
  vocabulary_size : Nat
deriving DecidableEq

/-- The values of the script's CLI arguments after parsing. -/
structure Args where
  config : String
  max_ckpts : Int
  tfrecords : Bool
  nfx : Bool
  tbs : Option Int
  ebs : Option Int
  devices : List Int
  mxp : Bool
  cache : Bool
  subwordsPfx : Option String
  subwords_corpus : List String
deriving DecidableEq

/-- What the user supplied on the command line: `none` (or `false` for a
`store_true` flag) means the option was absent. -/
structure CLI where
  config : Option String
  max_ckpts : Option Int
  tfrecords : Bool
  nfx : Bool
  tbs : Option Int
  ebs : Option Int
  devices : Option (List Int)
  mxp : Bool
  cache : Bool
  subwordsPfx : Option String
  subwords_corpus : Option (List String)
deriving DecidableEq

/-- A command line with no option supplied. -/
def CLI.empty : CLI :=
  CLI.mk none none false false none none none false false none none

/-- The `DEFAULT_YAML` constant: `os.path.join(dirname(abspath(__file__)),
"config.yml")`, as a function of the script's directory. -/
def DEFAULT_YAML (scriptDir : String) : String := scriptDir ++ "/config.yml"

/-- Embedding of `parser.parse_args()` for the argparse parser the script
sets up: each option takes the supplied value, or its declared default when
absent; `store_true` flags become `True` exactly when present. -/
def parse_args (scriptDir : String) (c : CLI) : Args :=
  Args.mk (c.config.getD (DEFAULT_YAML scriptDir)) (c.max_ckpts.getD 10)
    c.tfrecords c.nfx c.tbs c.ebs (c.devices.getD [0]) c.mxp c.cache
    c.subwordsPfx (c.subwords_corpus.getD [])

/-- One external call site of the script, with the arguments passed there. -/
inductive Call where
  | setupEnvironment
  | clearSession
  | parseArgs
  | setMixedPrecision (mxp : Bool)
  | setupStrategy (devices : List Int)
  | loadConfig (path : String)
  | printMsg (msg : String)
  | mkLms (nfx : Bool) (speech_config : Dict)
  | mkLgs (nfx : Bool) (speech_config : Dict)
  | loadSubwords (decoder_config : String) (subwordsPfx : Option String)
  | buildSubwords (decoder_config : String) (corpus : List String)
  | saveSubwords (subwordsPfx : Option String)
  | mkTrainDataset (d : Dataset)
  | mkEvalDataset (d : Dataset)
  | mkTrainer (t : Trainer)
  | mkModel (m : MultiConformers)
  | buildModel (lmsShape lgsShape : List Nat)
  | summaryModel (line_length : Nat)
  | mkOptimizer (o : AdamOptimizer)
  | compileTrainer (m : MultiConformers) (o : AdamOptimizer) (max_to_keep : Int)
  | fitTrainer (gradpolicy : String) (train evalD : Dataset) (tbs ebs : Option Int)
deriving DecidableEq

/-- The call site of a call, with its arguments erased. -/
inductive Site where
  | setupEnvironment
  | clearSession
  | parseArgs
  | setMixedPrecision
  | setupStrategy
  | loadConfig
  | printMsg
  | mkLms
  | mkLgs
  | loadSubwords
  | buildSubwords
  | saveSubwords
  | mkTrainDataset
  | mkEvalDataset
  | mkTrainer
  | mkModel
  | buildModel
  | summaryModel
  | mkOptimizer
  | compileTrainer
  | fitTrainer
deriving DecidableEq

/-- Erase a call's arguments, keeping only its site. -/
def Call.site : Call → Site
  | Call.setupEnvironment => Site.setupEnvironment
  | Call.clearSession => Site.clearSession
  | Call.parseArgs => Site.parseArgs
  | Call.setMixedPrecision _ => Site.setMixedPrecision
  | Call.setupStrategy _ => Site.setupStrategy
  | Call.loadConfig _ => Site.loadConfig
  | Call.printMsg _ => Site.printMsg
  | Call.mkLms _ _ => Site.mkLms
  | Call.mkLgs _ _ => Site.mkLgs
  | Call.loadSubwords _ _ => Site.loadSubwords
  | Call.buildSubwords _ _ => Site.buildSubwords
  | Call.saveSubwords _ => Site.saveSubwords
  | Call.mkTrainDataset _ => Site.mkTrainDataset
  | Call.mkEvalDataset _ => Site.mkEvalDataset
  | Call.mkTrainer _ => Site.mkTrainer
  | Call.mkModel _ => Site.mkModel
  | Call.buildModel _ _ => Site.buildModel
  | Call.summaryModel _ => Site.summaryModel
  | Call.mkOptimizer _ => Site.mkOptimizer
  | Call.compileTrainer _ _ _ => Site.compileTrainer
  | Call.fitTrainer _ _ _ _ _ => Site.fitTrainer

/-- An executed-call event: the call, and whether it executed textually
inside the `with multiconformers_trainer.strategy.scope():` block. -/
structure Ev where
  call : Call
  inScope : Bool
deriving DecidableEq

/-- The abstract environment of the run: everything outside the script
itself.  External functions whose results the script consumes are opaque
functions here; `fail?` injects, per call site, the exception that call
raises (or `none` when it succeeds). -/
structure Env where
  scriptDir : String
  fileExists : String → Bool
  configData : String → ConfigData
  num_classes : TextFeaturizer → Nat
  shape : SpeechFeaturizer → List Nat
  sqrtF : Nat → Rat
  fail? : Call → Option String

/-- The run monad: a program threads the list of already-executed call
events and either returns a value or stops with the error of the call that
raised. -/
def M (α : Type) : Type := List Ev → List Ev × Except String α

/-- Sequencing in the run monad: on an error the continuation never runs. -/
def M.bind {α β : Type} (m : M α) (f : α → M β) : M β := fun evs =>
  match m evs with
  | (evs1, Except.ok a) => f a evs1
  | (evs1, Except.error e) => (evs1, Except.error e)

instance : Monad M where
  pure a := fun evs => (evs, Except.ok a)
  bind := M.bind

/-- Execute one external call (outside the strategy scope): the event is
logged, then the call either raises the environment-injected error or
returns the value the script's arguments determine. -/
def callE {α : Type} (env : Env) (c : Call) (v : α) : M α := fun evs =>
  (evs ++ [Ev.mk c false],
   match env.fail? c with
   | some e => Except.error e
   | none => Except.ok v)

/-- Execute one external call inside the strategy scope. -/
def callS {α : Type} (env : Env) (c : Call) (v : α) : M α := fun evs =>
  (evs ++ [Ev.mk c true],
   match env.fail? c with
   | some e => Except.error e
   | none => Except.ok v)

/-- Python truthiness of `args.subwords_prefix`, whose value is `None` or a
string: `None` and the empty string are falsy. -/
def pyTruthy : Option String → Bool
  | none => false
  | some s => !s.isEmpty

/-- The f-string `f"SOMETHING.subwords"` built from the prefix argument (a
`None` prefix would render as the literal text `None`). -/
def subwordsPath : Option String → String
  | none => "None.subwords"
  | some s => s ++ ".subwords"

/-- The condition of the vocabulary branch:
`args.subwords_prefix and os.path.exists(f"...subwords")`. -/
def swCond (env : Env) (args : Args) : Bool :=
  pyTruthy args.subwordsPfx && env.fileExists (subwordsPath args.subwordsPfx)

/-- Modelled from the spec: the `UserConfig` class
(`tiramisu_asr.configs.user_config`) is external to this repository, so its
subscript operator is not in the source tree.  Per the spec's data model the
configuration "is a nested key-value structure consumed verbatim"; a Python
dictionary subscript returns the stored object itself, so
`config["speech_config"]` yields the same dictionary object on every
subscript.  It is embedded as the fixed reference `0` into a one-cell heap
holding that dictionary. -/
def speechConfigRef : Nat := 0

/-- The final result of a successful run: the objects the script has built
and still holds when `fit` returns. -/
structure Trace where
  args : Args
  strategy : Strategy
  lms : SpeechFeaturizer
  lgs : SpeechFeaturizer
  text_featurizer : TextFeaturizer
  train_dataset : Dataset
  eval_dataset : Dataset
  trainer : Trainer
  model : MultiConformers
  optimizer : AdamOptimizer
deriving DecidableEq

/-- The script body, translated statement by statement from
`train_subword_multiconformers.py`. -/
def script (env : Env) (cli : CLI) : M Trace := do
  let _ ← callE env Call.setupEnvironment ()
  let _ ← callE env Call.clearSession ()
  let args := parse_args env.scriptDir cli
  let _ ← callE env Call.parseArgs ()
  let _ ← callE env (Call.setMixedPrecision args.mxp) ()
  let strategy ← callE env (Call.setupStrategy args.devices) (Strategy.mk args.devices)
  let config ← callE env (Call.loadConfig args.config) (env.configData args.config)
  let heap0 : Heap := Heap.mk [config.speech_config]
  let lms_config := speechConfigRef
  let heap1 := heap0.setItem lms_config "feature_type" "log_mel_spectrogram"
  let lgs_config := speechConfigRef
  let heap2 := heap1.setItem lgs_config "feature_type" "log_gammatone_spectrogram"
  let fzs ←
    if args.nfx then do
      let a ← callE env (Call.mkLms true (heap2.read lms_config))
        (SpeechFeaturizer.numpy (heap2.read lms_config))
      let b ← callE env (Call.mkLgs true (heap2.read lgs_config))
        (SpeechFeaturizer.numpy (heap2.read lgs_config))
      pure (a, b)
    else do
      let a ← callE env (Call.mkLms false (heap2.read lms_config))
        (SpeechFeaturizer.tfSF (heap2.read lms_config))
      let b ← callE env (Call.mkLgs false (heap2.read lgs_config))
        (SpeechFeaturizer.tfSF (heap2.read lgs_config))
      pure (a, b)
  let speech_featurizer_lms := fzs.1
  let speech_featurizer_lgs := fzs.2
  let text_featurizer ←
    if swCond env args then do
      let _ ← callE env (Call.printMsg "Loading subwords ...") ()
      callE env (Call.loadSubwords config.decoder_config args.subwordsPfx)
        (TextFeaturizer.loaded config.decoder_config args.subwordsPfx)
    else do
      let _ ← callE env (Call.printMsg "Generating subwords ...") ()
      let t ← callE env (Call.buildSubwords config.decoder_config args.subwords_corpus)
        (TextFeaturizer.built config.decoder_config args.subwords_corpus)
      let _ ← callE env (Call.saveSubwords args.subwordsPfx) ()
      pure t
  let dss ←
    if args.tfrecords then do
      let tr := Dataset.tfrecord config.learning_config.dataset_config.train_paths
        config.learning_config.dataset_config.tfrecords_dir
        speech_featurizer_lms speech_featurizer_lgs text_featurizer "train"
        (some config.learning_config.augmentations) args.cache true
      let a ← callE env (Call.mkTrainDataset tr) tr
      let ed := Dataset.tfrecord config.learning_config.dataset_config.eval_paths
        config.learning_config.dataset_config.tfrecords_dir
        speech_featurizer_lms speech_featurizer_lgs text_featurizer "eval"
        none args.cache true
      let b ← callE env (Call.mkEvalDataset ed) ed
      pure (a, b)
    else do
      let tr := Dataset.slice speech_featurizer_lms speech_featurizer_lgs text_featurizer
        config.learning_config.dataset_config.train_paths
        (some config.learning_config.augmentations) "train" args.cache true
      let a ← callE env (Call.mkTrainDataset tr) tr
      let ed := Dataset.slice speech_featurizer_lms speech_featurizer_lgs text_featurizer
        config.learning_config.dataset_config.eval_paths
        none "eval" args.cache true
      let b ← callE env (Call.mkEvalDataset ed) ed
      pure (a, b)
  let train_dataset := dss.1
  let eval_dataset := dss.2
  let trainer0 := Trainer.mk config.learning_config.running_config text_featurizer strategy
  let multiconformers_trainer ← callE env (Call.mkTrainer trainer0) trainer0
  let model0 := MultiConformers.mk config.model_config (env.num_classes text_featurizer)
  let multiconformers ← callS env (Call.mkModel model0) model0
  let _ ← callS env (Call.buildModel (env.shape speech_featurizer_lms)
    (env.shape speech_featurizer_lgs)) ()
  let _ ← callS env (Call.summaryModel 120) ()
  let optimizer_config := config.learning_config.optimizer_config
  let opt0 := AdamOptimizer.mk
    (TransformerSchedule.mk config.model_config.dmodel optimizer_config.warmup_steps
      ((0.05 : Rat) / env.sqrtF config.model_config.dmodel))
    optimizer_config.beta1 optimizer_config.beta2 optimizer_config.epsilon
  let optimizer ← callS env (Call.mkOptimizer opt0) opt0
  let _ ← callE env (Call.compileTrainer multiconformers optimizer args.max_ckpts) ()
  let _ ← callE env (Call.fitTrainer config.learning_config.gradpolicy
    train_dataset eval_dataset args.tbs args.ebs) ()
  pure (Trace.mk args strategy speech_featurizer_lms speech_featurizer_lgs
    text_featurizer train_dataset eval_dataset multiconformers_trainer
    multiconformers optimizer)

/-- Run the script from an empty event log. -/
def runScript (env : Env) (cli : CLI) : List Ev × Except String Trace :=
  script env cli []

/-- An environment in which no external call raises. -/
def OkEnv (env : Env) : Prop := ∀ c, env.fail? c = none

/-- The dictionary contents both featurizers are constructed from: the
shared `speech_config` dictionary after both `feature_type` assignments. -/
def scFinal (cfg : ConfigData) : Dict :=
  Dict.set (Dict.set cfg.speech_config "feature_type" "log_mel_spectrogram")
    "feature_type" "log_gammatone_spectrogram"

/-- Explicit form of the final trace of a run in which no call raises. -/
def goodTrace (env : Env) (cli : CLI) : Trace :=
  let args := parse_args env.scriptDir cli
  let cfg := env.configData args.config
  let sc := scFinal cfg
  let lms := if args.nfx then SpeechFeaturizer.numpy sc else SpeechFeaturizer.tfSF sc
  let lgs := if args.nfx then SpeechFeaturizer.numpy sc else SpeechFeaturizer.tfSF sc
  let txt := if swCond env args
    then TextFeaturizer.loaded cfg.decoder_config args.subwordsPfx
    else TextFeaturizer.built cfg.decoder_config args.subwords_corpus
  let dc := cfg.learning_config.dataset_config
  let trainDs := if args.tfrecords
    then Dataset.tfrecord dc.train_paths dc.tfrecords_dir lms lgs txt "train"
      (some cfg.learning_config.augmentations) args.cache true
    else Dataset.slice lms lgs txt dc.train_paths
      (some cfg.learning_config.augmentations) "train" args.cache true
  let evalDs := if args.tfrecords
    then Dataset.tfrecord dc.eval_paths dc.tfrecords_dir lms lgs txt "eval"
      none args.cache true
    else Dataset.slice lms lgs txt dc.eval_paths none "eval" args.cache true
  let strat := Strategy.mk args.devices
  let trainer := Trainer.mk cfg.learning_config.running_config txt strat
  let oc := cfg.learning_config.optimizer_config
  let opt := AdamOptimizer.mk
    (TransformerSchedule.mk cfg.model_config.dmodel oc.warmup_steps
      ((0.05 : Rat) / env.sqrtF cfg.model_config.dmodel))
    oc.beta1 oc.beta2 oc.epsilon
  Trace.mk args strat lms lgs txt trainDs evalDs trainer
    (MultiConformers.mk cfg.model_config (env.num_classes txt)) opt

/-- Explicit form of the event log of a run in which no call raises. -/
def goodEvents (env : Env) (cli : CLI) : List Ev :=
  let args := parse_args env.scriptDir cli
  let cfg := env.configData args.config
  let tr := goodTrace env cli
  [Ev.mk Call.setupEnvironment false, Ev.mk Call.clearSession false,
   Ev.mk Call.parseArgs false, Ev.mk (Call.setMixedPrecision args.mxp) false,
   Ev.mk (Call.setupStrategy args.devices) false,
   Ev.mk (Call.loadConfig args.config) false,
   Ev.mk (Call.mkLms args.nfx (scFinal cfg)) false,
   Ev.mk (Call.mkLgs args.nfx (scFinal cfg)) false]
  ++ (if swCond env args then
        [Ev.mk (Call.printMsg "Loading subwords ...") false,
         Ev.mk (Call.loadSubwords cfg.decoder_config args.subwordsPfx) false]
      else
        [Ev.mk (Call.printMsg "Generating subwords ...") false,
         Ev.mk (Call.buildSubwords cfg.decoder_config args.subwords_corpus) false,
         Ev.mk (Call.saveSubwords args.subwordsPfx) false])
  ++ [Ev.mk (Call.mkTrainDataset tr.train_dataset) false,
      Ev.mk (Call.mkEvalDataset tr.eval_dataset) false,
      Ev.mk (Call.mkTrainer tr.trainer) false,
      Ev.mk (Call.mkModel tr.model) true,
      Ev.mk (Call.buildModel (env.shape tr.lms) (env.shape tr.lgs)) true,
      Ev.mk (Call.summaryModel 120) true,
      Ev.mk (Call.mkOptimizer tr.optimizer) true,
      Ev.mk (Call.compileTrainer tr.model tr.optimizer args.max_ckpts) false,
      Ev.mk (Call.fitTrainer cfg.learning_config.gradpolicy tr.train_dataset
        tr.eval_dataset args.tbs args.ebs) false]

/-- Unfolding a bind of the run monad at an event log. -/
theorem M.run_bind {α β : Type} (m : M α) (f : α → M β) (evs : List Ev) :
    (m >>= f) evs = match m evs with
      | (evs1, Except.ok a) => f a evs1
      | (evs1, Except.error e) => (evs1, Except.error e) := rfl

/-- Unfolding a pure value of the run monad at an event log. -/
theorem M.run_pure {α : Type} (a : α) (evs : List Ev) :
    (pure a : M α) evs = (evs, Except.ok a) := rfl

/-- A call that the environment lets succeed logs its event and returns its
value. -/
theorem callE_ok {α : Type} (env : Env) (c : Call) (v : α)
    (h : env.fail? c = none) (evs : List Ev) :
    callE env c v evs = (evs ++ [Ev.mk c false], Except.ok v) := by
  simp [callE, h]

/-- A call inside the scope that succeeds logs its event and returns its
value. -/
theorem callS_ok {α : Type} (env : Env) (c : Call) (v : α)
    (h : env.fail? c = none) (evs : List Ev) :
    callS env c v evs = (evs ++ [Ev.mk c true], Except.ok v) := by
  simp [callS, h]

set_option maxHeartbeats 3200000

/-- In an environment where no call raises, running the script yields
exactly the explicit event log and the explicit final trace. -/
theorem runScript_ok (env : Env) (cli : CLI) (h : OkEnv env) :
    runScript env cli = (goodEvents env cli, Except.ok (goodTrace env cli)) := by
  have hf : ∀ c, env.fail? c = none := h
  unfold runScript script goodEvents goodTrace
  generalize parse_args env.scriptDir cli = args
  generalize env.configData args.config = cfg
  cases hn : args.nfx <;> cases ht : args.tfrecords <;> cases hs : swCond env args <;>
    simp [M.run_bind, M.run_pure, callE_ok, callS_ok, hf, hn, ht, hs, scFinal,
      Heap.setItem, Heap.write, Heap.read, speechConfigRef]

/-- A program propagates errors cleanly when, from any starting log, it
either succeeds with every executed call succeeding, or stops exactly at
its first failing call, returning that call's error unmodified and
executing nothing afterwards. -/
def Clean (env : Env) {α : Type} (m : M α) : Prop :=
  ∀ evs0,
    (∃ evs a, m evs0 = (evs0 ++ evs, Except.ok a) ∧
      ∀ ev ∈ evs, env.fail? ev.call = none) ∨
    (∃ evs c b e, m evs0 = (evs0 ++ evs ++ [Ev.mk c b], Except.error e) ∧
      env.fail? c = some e ∧ ∀ ev ∈ evs, env.fail? ev.call = none)

/-- A pure value is clean. -/
theorem Clean.pureM {α : Type} (env : Env) (a : α) : Clean env (pure a : M α) := by
  intro evs0
  exact Or.inl ⟨[], a, by simp [M.run_pure], by simp⟩

/-- A single external call outside the scope is clean: it either succeeds
or raises its own error and stops. -/
theorem Clean.callOut {α : Type} (env : Env) (c : Call) (v : α) :
    Clean env (callE env c v) := by
  intro evs0
  cases hc : env.fail? c with
  | none =>
    exact Or.inl ⟨[Ev.mk c false], v, by simp [callE, hc], by simp [hc]⟩
  | some e =>
    exact Or.inr ⟨[], c, false, e, by simp [callE, hc], hc, by simp⟩

/-- A single external call inside the scope is clean. -/
theorem Clean.callIn {α : Type} (env : Env) (c : Call) (v : α) :
    Clean env (callS env c v) := by
  intro evs0
  cases hc : env.fail? c with
  | none =>
    exact Or.inl ⟨[Ev.mk c true], v, by simp [callS, hc], by simp [hc]⟩
  | some e =>
    exact Or.inr ⟨[], c, true, e, by simp [callS, hc], hc, by simp⟩

/-- Sequencing preserves cleanness: an error in the first part skips the
continuation; otherwise the continuation's behaviour decides. -/
theorem Clean.bind {α β : Type} (env : Env) (m : M α) (f : α → M β)
    (hm : Clean env m) (hf : ∀ a, Clean env (f a)) : Clean env (m >>= f) := by
  intro evs0
  rcases hm evs0 with ⟨evs, a, hrun, hok⟩ | ⟨evs, c, b, e, hrun, hc, hok⟩
  · rcases hf a (evs0 ++ evs) with ⟨evs2, a2, hrun2, hok2⟩ |
      ⟨evs2, c2, b2, e2, hrun2, hc2, hok2⟩
    · refine Or.inl ⟨evs ++ evs2, a2, ?_, ?_⟩
      · simp [M.run_bind, hrun, hrun2, List.append_assoc]
      · intro ev hev
        rcases List.mem_append.mp hev with h1 | h2
        · exact hok ev h1
        · exact hok2 ev h2
    · refine Or.inr ⟨evs ++ evs2, c2, b2, e2, ?_, hc2, ?_⟩
      · simp [M.run_bind, hrun, hrun2, List.append_assoc]
      · intro ev hev
        rcases List.mem_append.mp hev with h1 | h2
        · exact hok ev h1
        · exact hok2 ev h2
  · refine Or.inr ⟨evs, c, b, e, ?_, hc, hok⟩
    simp [M.run_bind, hrun]

/-- Branching preserves cleanness. -/
theorem Clean.iteM {α : Type} (env : Env) (c : Prop) [Decidable c]
    (m1 m2 : M α) (h1 : Clean env m1) (h2 : Clean env m2) :
    Clean env (if c then m1 else m2) := by
  by_cases hc : c
  · simpa [hc] using h1
  · simpa [hc] using h2

set_option maxRecDepth 8192

/-- The whole script propagates errors cleanly: it is a straight-line
sequence of external calls with no handler anywhere. -/
theorem script_clean (env : Env) (cli : CLI) : Clean env (script env cli) := by
  unfold script
  repeat
    first
    | exact Clean.callOut env _ _
    | exact Clean.callIn env _ _
    | exact Clean.pureM env _
    | apply Clean.bind
    | apply Clean.iteM
    | intro a

/-- Setting a key makes lookup of that key return the new value. -/
theorem Dict.get_set_self (d : Dict) (k v : String) :
    Dict.get (Dict.set d k v) k = some v := by
  simp [Dict.get, Dict.set, List.find?_cons]

/-- Both featurizer constructors receive the dictionary unchanged. -/
theorem sconfig_ite (b : Bool) (d : Dict) :
    SpeechFeaturizer.sconfig
      (if b then SpeechFeaturizer.numpy d else SpeechFeaturizer.tfSF d) = d := by
  cases b <;> simp [SpeechFeaturizer.sconfig]

/-- A string is non-empty exactly when `isEmpty` is `false`. -/
theorem isEmpty_false_iff (s : String) : s.isEmpty = false ↔ s ≠ "" := by
  rw [Bool.eq_false_iff]
  exact not_congr (String.isEmpty_iff s)

/-- The load branch is taken exactly when the prefix is a non-empty string
and the `<prefix>.subwords` file exists. -/
theorem swCond_iff (env : Env) (args : Args) :
    swCond env args = true ↔
      ∃ s, args.subwordsPfx = some s ∧ s ≠ "" ∧
        env.fileExists (s ++ ".subwords") = true := by
  cases hp : args.subwordsPfx with
  | none => simp [swCond, pyTruthy, hp]
  | some s =>
    simp [swCond, pyTruthy, subwordsPath, hp, Bool.and_eq_true,
      Bool.not_eq_true', isEmpty_false_iff]

/-- A concrete configuration used by the witness runs. -/
def demoConfig : ConfigData :=
  ConfigData.mk [("sample_rate", "16000")] "decoder"
    (LearningCfg.mk (DatasetCfg.mk ["train.tsv"] ["dev.tsv"] "tfrecords")
      "augset" "runcfg" (OptimizerCfg.mk 40000 (9 / 10) (98 / 100) (1 / 1000000000))
      "policy")
    (ModelCfg.mk 144 [("name", "multiconformers")])

/-- A concrete environment in which every external call succeeds. -/
def demoEnv : Env :=
  Env.mk "examples/multiconformers" (fun _ => false) (fun _ => demoConfig)
    (fun _ => 1000) (fun _ => [80, 4]) (fun n => (n : Rat)) (fun _ => none)

/-- A concrete command line with every option left at its default. -/
def demoCLI : CLI := CLI.empty

/-- C1: because `lms_config` and `lgs_config` are bound to the same
dictionary object returned by `config["speech_config"]`, the assignment of
`"log_gammatone_spectrogram"` overwrites the `"log_mel_spectrogram"` value,
so in every successful run both speech featurizers (whether Numpy or TF)
are constructed from a dictionary whose `feature_type` is
`"log_gammatone_spectrogram"` - indeed from the very same dictionary. -/
theorem spec_C1_featurizers_gammatone (env : Env) (cli : CLI) (h : OkEnv env) :
    ∃ evs tr, runScript env cli = (evs, Except.ok tr) ∧
      Dict.get (SpeechFeaturizer.sconfig tr.lms) "feature_type"
        = some "log_gammatone_spectrogram" ∧
      Dict.get (SpeechFeaturizer.sconfig tr.lgs) "feature_type"
        = some "log_gammatone_spectrogram" ∧
      SpeechFeaturizer.sconfig tr.lms = SpeechFeaturizer.sconfig tr.lgs := by
  refine ⟨goodEvents env cli, goodTrace env cli, runScript_ok env cli h, ?_, ?_, ?_⟩ <;>
    simp [goodTrace, sconfig_ite, scFinal, Dict.get_set_self]

/-- C1 witness: the property holds on the concrete demo run. -/
theorem spec_C1_featurizers_gammatone_witness :
    OkEnv demoEnv ∧
    ∃ evs tr, runScript demoEnv demoCLI = (evs, Except.ok tr) ∧
      Dict.get (SpeechFeaturizer.sconfig tr.lms) "feature_type"
        = some "log_gammatone_spectrogram" ∧
      Dict.get (SpeechFeaturizer.sconfig tr.lgs) "feature_type"
        = some "log_gammatone_spectrogram" ∧
      SpeechFeaturizer.sconfig tr.lms = SpeechFeaturizer.sconfig tr.lgs :=
  ⟨fun _ => rfl, spec_C1_featurizers_gammatone demoEnv demoCLI (fun _ => rfl)⟩

/-- C2: the subword vocabulary is loaded from file (with the given prefix)
if and only if `--subwords_prefix` is a non-empty string and a file named
`<prefix>.subwords` exists; in every other case it is built from the
`--subwords_corpus` files and then written via `save_to_file`. -/
theorem spec_C2_subwords_load_iff (env : Env) (cli : CLI) (h : OkEnv env) :
    ∃ evs tr, runScript env cli = (evs, Except.ok tr) ∧
      ((∃ s, cli.subwordsPfx = some s ∧ s ≠ "" ∧
          env.fileExists (s ++ ".subwords") = true) →
        tr.text_featurizer = TextFeaturizer.loaded
          (env.configData (parse_args env.scriptDir cli).config).decoder_config
          cli.subwordsPfx ∧
        ∀ p b, Ev.mk (Call.saveSubwords p) b ∉ evs) ∧
      ((¬ ∃ s, cli.subwordsPfx = some s ∧ s ≠ "" ∧
          env.fileExists (s ++ ".subwords") = true) →
        tr.text_featurizer = TextFeaturizer.built
          (env.configData (parse_args env.scriptDir cli).config).decoder_config
          (parse_args env.scriptDir cli).subwords_corpus ∧
        Ev.mk (Call.saveSubwords cli.subwordsPfx) false ∈ evs) := by
  refine ⟨goodEvents env cli, goodTrace env cli, runScript_ok env cli h, ?_, ?_⟩
  · intro hc
    have hsw : swCond env (parse_args env.scriptDir cli) = true :=
      (swCond_iff env (parse_args env.scriptDir cli)).mpr hc
    simp only [parse_args] at hsw
    constructor
    · simp [goodTrace, hsw, parse_args]
    · intro p b
      simp [goodEvents, hsw, parse_args]
  · intro hc
    have hsw : swCond env (parse_args env.scriptDir cli) = false := by
      rw [Bool.eq_false_iff]
      intro hT
      exact hc ((swCond_iff env (parse_args env.scriptDir cli)).mp hT)
    simp only [parse_args] at hsw
    constructor
    · simp [goodTrace, hsw, parse_args]
    · simp [goodEvents, hsw, parse_args]

/-- C2 witness: the demo command line has no prefix, so the build branch
runs and the vocabulary is saved. -/
theorem spec_C2_subwords_load_iff_witness :
    OkEnv demoEnv ∧
    ∃ evs tr, runScript demoEnv demoCLI = (evs, Except.ok tr) ∧
      ((∃ s, demoCLI.subwordsPfx = some s ∧ s ≠ "" ∧
          demoEnv.fileExists (s ++ ".subwords") = true) →
        tr.text_featurizer = TextFeaturizer.loaded
          (demoEnv.configData (parse_args demoEnv.scriptDir demoCLI).config).decoder_config
          demoCLI.subwordsPfx ∧
        ∀ p b, Ev.mk (Call.saveSubwords p) b ∉ evs) ∧
      ((¬ ∃ s, demoCLI.subwordsPfx = some s ∧ s ≠ "" ∧
          demoEnv.fileExists (s ++ ".subwords") = true) →
        tr.text_featurizer = TextFeaturizer.built
          (demoEnv.configData (parse_args demoEnv.scriptDir demoCLI).config).decoder_config
          (parse_args demoEnv.scriptDir demoCLI).subwords_corpus ∧
        Ev.mk (Call.saveSubwords demoCLI.subwordsPfx) false ∈ evs) :=
  ⟨fun _ => rfl, spec_C2_subwords_load_iff demoEnv demoCLI (fun _ => rfl)⟩

/-- C3: with `--tfrecords` both datasets use the tfrecord backend, without
it both use the in-memory slice backend; the two backends are never mixed,
and the data paths come from `train_paths` and `eval_paths` respectively. -/
theorem spec_C3_dataset_backend (env : Env) (cli : CLI) (h : OkEnv env) :
    ∃ evs tr, runScript env cli = (evs, Except.ok tr) ∧
      Dataset.isTFRecord tr.train_dataset = cli.tfrecords ∧
      Dataset.isTFRecord tr.eval_dataset = cli.tfrecords ∧
      Dataset.dataPaths tr.train_dataset =
        (env.configData (parse_args env.scriptDir cli).config).learning_config.dataset_config.train_paths ∧
      Dataset.dataPaths tr.eval_dataset =
        (env.configData (parse_args env.scriptDir cli).config).learning_config.dataset_config.eval_paths := by
  refine ⟨_, _, runScript_ok env cli h, ?_, ?_, ?_, ?_⟩ <;>
    cases ht : cli.tfrecords <;>
      simp [goodTrace, parse_args, ht, Dataset.isTFRecord, Dataset.dataPaths]

/-- C3 witness: the demo run uses the slice backend everywhere. -/
theorem spec_C3_dataset_backend_witness :
    OkEnv demoEnv ∧
    ∃ evs tr, runScript demoEnv demoCLI = (evs, Except.ok tr) ∧
      Dataset.isTFRecord tr.train_dataset = demoCLI.tfrecords ∧
      Dataset.isTFRecord tr.eval_dataset = demoCLI.tfrecords ∧
      Dataset.dataPaths tr.train_dataset =
        (demoEnv.configData (parse_args demoEnv.scriptDir demoCLI).config).learning_config.dataset_config.train_paths ∧
      Dataset.dataPaths tr.eval_dataset =
        (demoEnv.configData (parse_args demoEnv.scriptDir demoCLI).config).learning_config.dataset_config.eval_paths :=
  ⟨fun _ => rfl, spec_C3_dataset_backend demoEnv demoCLI (fun _ => rfl)⟩

/-- C4: when the prefix is falsy (left at its `None` default or empty) the
build branch still calls `save_to_file` with that very prefix; the write is
attempted unconditionally in the build branch. -/
theorem spec_C4_save_unguarded (env : Env) (cli : CLI) (h : OkEnv env)
    (hp : pyTruthy cli.subwordsPfx = false) :
    ∃ evs tr, runScript env cli = (evs, Except.ok tr) ∧
      Ev.mk (Call.saveSubwords cli.subwordsPfx) false ∈ evs := by
  refine ⟨_, _, runScript_ok env cli h, ?_⟩
  have hsw : swCond env (parse_args env.scriptDir cli) = false := by
    simp [swCond, parse_args, hp]
  simp only [parse_args] at hsw
  simp [goodEvents, hsw, parse_args]

/-- C4 witness: the demo command line leaves the prefix at `None` and the
save call still happens with that `None` prefix. -/
theorem spec_C4_save_unguarded_witness :
    OkEnv demoEnv ∧ pyTruthy demoCLI.subwordsPfx = false ∧
    ∃ evs tr, runScript demoEnv demoCLI = (evs, Except.ok tr) ∧
      Ev.mk (Call.saveSubwords demoCLI.subwordsPfx) false ∈ evs :=
  ⟨fun _ => rfl, rfl, spec_C4_save_unguarded demoEnv demoCLI (fun _ => rfl) rfl⟩

/-- C5: the script contains no handler: every run either succeeds with all
its external calls succeeding, or stops at its first failing call and
returns that call's exception unmodified, executing nothing afterwards. -/
theorem spec_C5_errors_propagate (env : Env) (cli : CLI) :
    (∃ evs tr, runScript env cli = (evs, Except.ok tr) ∧
      ∀ ev ∈ evs, env.fail? ev.call = none) ∨
    (∃ evs c b e, runScript env cli = (evs ++ [Ev.mk c b], Except.error e) ∧
      env.fail? c = some e ∧ ∀ ev ∈ evs, env.fail? ev.call = none) := by
  rcases script_clean env cli [] with ⟨evs, a, hrun, hok⟩ |
    ⟨evs, c, b, e, hrun, hc, hok⟩
  · exact Or.inl ⟨evs, a, by simpa [runScript] using hrun, hok⟩
  · exact Or.inr ⟨evs, c, b, e, by simpa [runScript] using hrun, hc, hok⟩

/-- C6: the argparse defaults and flag semantics: `--config` defaults to
the bundled `config.yml` next to the script, the `store_true` flags are
`False` when absent and `True` when present, `--max_ckpts` defaults to 10,
`--tbs`/`--ebs` default to `None`, `--devices` defaults to `[0]` and
`--subwords_corpus` defaults to the empty list. -/
theorem spec_C6_argparse_defaults (sd : String) (c : CLI) :
    parse_args sd CLI.empty = Args.mk (DEFAULT_YAML sd) 10 false false none none
      [0] false false none [] ∧
    (parse_args sd c).config = c.config.getD (DEFAULT_YAML sd) ∧
    (parse_args sd c).max_ckpts = c.max_ckpts.getD 10 ∧
    (parse_args sd c).tfrecords = c.tfrecords ∧
    (parse_args sd c).nfx = c.nfx ∧
    (parse_args sd c).mxp = c.mxp ∧
    (parse_args sd c).cache = c.cache ∧
    (parse_args sd c).tbs = c.tbs ∧
    (parse_args sd c).ebs = c.ebs ∧
    (parse_args sd c).devices = c.devices.getD [0] ∧
    (parse_args sd c).subwords_corpus = c.subwords_corpus.getD [] :=
  ⟨rfl, rfl, rfl, rfl, rfl, rfl, rfl, rfl, rfl, rfl, rfl⟩

/-- The call-site/scope profile of an event list: the per-call arguments
are erased, keeping only which call ran and whether it ran inside the
strategy scope. -/
def profile (evs : List Ev) : List (Site × Bool) :=
  evs.map (fun ev => (Call.site ev.call, ev.inScope))

/-- Profile of a failure-free run: fixed except for the vocabulary branch,
with exactly the model, build, summary and optimizer calls in scope. -/
theorem goodEvents_profile (env : Env) (cli : CLI) :
    profile (goodEvents env cli) =
      [(Site.setupEnvironment, false), (Site.clearSession, false),
       (Site.parseArgs, false), (Site.setMixedPrecision, false),
       (Site.setupStrategy, false), (Site.loadConfig, false),
       (Site.mkLms, false), (Site.mkLgs, false)]
      ++ (if swCond env (parse_args env.scriptDir cli) then
            [(Site.printMsg, false), (Site.loadSubwords, false)]
          else
            [(Site.printMsg, false), (Site.buildSubwords, false),
             (Site.saveSubwords, false)])
      ++ [(Site.mkTrainDataset, false), (Site.mkEvalDataset, false),
          (Site.mkTrainer, false), (Site.mkModel, true), (Site.buildModel, true),
          (Site.summaryModel, true), (Site.mkOptimizer, true),
          (Site.compileTrainer, false), (Site.fitTrainer, false)] := by
  cases hsw : swCond env (parse_args env.scriptDir cli) <;>
    simp [profile, goodEvents, hsw, Call.site]

/-- C7: the model and the optimizer are constructed inside the trainer's
strategy scope, the model's vocabulary size is the `num_classes` of the one
text featurizer, and that same featurizer object is the one passed to both
datasets and to the trainer (whose strategy is the strategy of the run). -/
theorem spec_C7_scope_and_sharing (env : Env) (cli : CLI) (h : OkEnv env) :
    ∃ evs tr, runScript env cli = (evs, Except.ok tr) ∧
      Ev.mk (Call.mkModel tr.model) true ∈ evs ∧
      Ev.mk (Call.mkOptimizer tr.optimizer) true ∈ evs ∧
      (∀ st sc, (st, sc) ∈ profile evs →
        (st = Site.mkModel ∨ st = Site.mkOptimizer) → sc = true) ∧
      tr.model.vocabulary_size = env.num_classes tr.text_featurizer ∧
      Dataset.txt tr.train_dataset = tr.text_featurizer ∧
      Dataset.txt tr.eval_dataset = tr.text_featurizer ∧
      tr.trainer.text_featurizer = tr.text_featurizer ∧
      tr.trainer.strategy = tr.strategy := by
  refine ⟨_, _, runScript_ok env cli h, ?_, ?_, ?_, ?_, ?_, ?_, ?_, ?_⟩
  · simp [goodEvents]
  · simp [goodEvents]
  · rw [goodEvents_profile]
    cases hsw : swCond env (parse_args env.scriptDir cli) <;> simp [hsw]
  · simp [goodTrace]
  · cases ht : cli.tfrecords <;> simp [goodTrace, parse_args, ht, Dataset.txt]
  · cases ht : cli.tfrecords <;> simp [goodTrace, parse_args, ht, Dataset.txt]
  · simp [goodTrace]
  · simp [goodTrace]

/-- C7 witness: the property holds on the concrete demo run. -/
theorem spec_C7_scope_and_sharing_witness :
    OkEnv demoEnv ∧
    ∃ evs tr, runScript demoEnv demoCLI = (evs, Except.ok tr) ∧
      Ev.mk (Call.mkModel tr.model) true ∈ evs ∧
      Ev.mk (Call.mkOptimizer tr.optimizer) true ∈ evs ∧
      (∀ st sc, (st, sc) ∈ profile evs →
        (st = Site.mkModel ∨ st = Site.mkOptimizer) → sc = true) ∧
      tr.model.vocabulary_size = demoEnv.num_classes tr.text_featurizer ∧
      Dataset.txt tr.train_dataset = tr.text_featurizer ∧
      Dataset.txt tr.eval_dataset = tr.text_featurizer ∧
      tr.trainer.text_featurizer = tr.text_featurizer ∧
      tr.trainer.strategy = tr.strategy :=
  ⟨fun _ => rfl, spec_C7_scope_and_sharing demoEnv demoCLI (fun _ => rfl)⟩

/-- C8: the optimizer is Adam over a TransformerSchedule built with
`d_model` equal to the config's `dmodel`, `warmup_steps` from the optimizer
config, `max_lr` equal to 0.05 divided by the square root of `dmodel`, and
betas/epsilon from the optimizer config. -/
theorem spec_C8_optimizer_schedule (env : Env) (cli : CLI) (h : OkEnv env) :
    ∃ evs tr, runScript env cli = (evs, Except.ok tr) ∧
      tr.optimizer = AdamOptimizer.mk
        (TransformerSchedule.mk
          (env.configData (parse_args env.scriptDir cli).config).model_config.dmodel
          (env.configData (parse_args env.scriptDir cli).config).learning_config.optimizer_config.warmup_steps
          ((0.05 : Rat) / env.sqrtF
            (env.configData (parse_args env.scriptDir cli).config).model_config.dmodel))
        (env.configData (parse_args env.scriptDir cli).config).learning_config.optimizer_config.beta1
        (env.configData (parse_args env.scriptDir cli).config).learning_config.optimizer_config.beta2
        (env.configData (parse_args env.scriptDir cli).config).learning_config.optimizer_config.epsilon := by
  refine ⟨_, _, runScript_ok env cli h, ?_⟩
  simp [goodTrace]

/-- C8 witness: the optimizer of the demo run has exactly this shape. -/
theorem spec_C8_optimizer_schedule_witness :
    OkEnv demoEnv ∧
    ∃ evs tr, runScript demoEnv demoCLI = (evs, Except.ok tr) ∧
      tr.optimizer = AdamOptimizer.mk
        (TransformerSchedule.mk
          (demoEnv.configData (parse_args demoEnv.scriptDir demoCLI).config).model_config.dmodel
          (demoEnv.configData (parse_args demoEnv.scriptDir demoCLI).config).learning_config.optimizer_config.warmup_steps
          ((0.05 : Rat) / demoEnv.sqrtF
            (demoEnv.configData (parse_args demoEnv.scriptDir demoCLI).config).model_config.dmodel))
        (demoEnv.configData (parse_args demoEnv.scriptDir demoCLI).config).learning_config.optimizer_config.beta1
        (demoEnv.configData (parse_args demoEnv.scriptDir demoCLI).config).learning_config.optimizer_config.beta2
        (demoEnv.configData (parse_args demoEnv.scriptDir demoCLI).config).learning_config.optimizer_config.epsilon :=
  ⟨fun _ => rfl, spec_C8_optimizer_schedule demoEnv demoCLI (fun _ => rfl)⟩

/-- C9: the phases run in the fixed source order, each exactly once: parse,
strategy setup, config load, the two featurizers, the vocabulary branch,
train dataset, eval dataset, trainer, then model, build, summary and
optimizer inside the scope, then compile, then fit. -/
theorem spec_C9_phase_order (env : Env) (cli : CLI) (h : OkEnv env) :
    ∃ evs tr, runScript env cli = (evs, Except.ok tr) ∧
      evs.map (fun ev => Call.site ev.call) =
        [Site.setupEnvironment, Site.clearSession, Site.parseArgs,
         Site.setMixedPrecision, Site.setupStrategy, Site.loadConfig,
         Site.mkLms, Site.mkLgs]
        ++ (if swCond env (parse_args env.scriptDir cli) then
              [Site.printMsg, Site.loadSubwords]
            else
              [Site.printMsg, Site.buildSubwords, Site.saveSubwords])
        ++ [Site.mkTrainDataset, Site.mkEvalDataset, Site.mkTrainer,
            Site.mkModel, Site.buildModel, Site.summaryModel, Site.mkOptimizer,
            Site.compileTrainer, Site.fitTrainer] := by
  refine ⟨_, _, runScript_ok env cli h, ?_⟩
  cases hsw : swCond env (parse_args env.scriptDir cli) <;>
    simp [goodEvents, Call.site, hsw]

/-- C9 witness: the phase order of the concrete demo run. -/
theorem spec_C9_phase_order_witness :
    OkEnv demoEnv ∧
    ∃ evs tr, runScript demoEnv demoCLI = (evs, Except.ok tr) ∧
      evs.map (fun ev => Call.site ev.call) =
        [Site.setupEnvironment, Site.clearSession, Site.parseArgs,
         Site.setMixedPrecision, Site.setupStrategy, Site.loadConfig,
         Site.mkLms, Site.mkLgs]
        ++ (if swCond demoEnv (parse_args demoEnv.scriptDir demoCLI) then
              [Site.printMsg, Site.loadSubwords]
            else
              [Site.printMsg, Site.buildSubwords, Site.saveSubwords])
        ++ [Site.mkTrainDataset, Site.mkEvalDataset, Site.mkTrainer,
            Site.mkModel, Site.buildModel, Site.summaryModel, Site.mkOptimizer,
            Site.compileTrainer, Site.fitTrainer] :=
  ⟨fun _ => rfl, spec_C9_phase_order demoEnv demoCLI (fun _ => rfl)⟩

/-- C10: under both backends the train dataset receives the configured
augmentations while the eval dataset is built without an augmentations
argument, and both receive `shuffle=True` and `cache` equal to the
`--cache` flag. -/
theorem spec_C10_augmentations (env : Env) (cli : CLI) (h : OkEnv env) :
    ∃ evs tr, runScript env cli = (evs, Except.ok tr) ∧
      Dataset.augm tr.train_dataset =
        some (env.configData (parse_args env.scriptDir cli).config).learning_config.augmentations ∧
      Dataset.augm tr.eval_dataset = none ∧
      Dataset.shuffleFlag tr.train_dataset = true ∧
      Dataset.shuffleFlag tr.eval_dataset = true ∧
      Dataset.cacheFlag tr.train_dataset = cli.cache ∧
      Dataset.cacheFlag tr.eval_dataset = cli.cache := by
  refine ⟨_, _, runScript_ok env cli h, ?_, ?_, ?_, ?_, ?_, ?_⟩ <;>
    cases ht : cli.tfrecords <;>
      simp [goodTrace, parse_args, ht, Dataset.augm, Dataset.shuffleFlag,
        Dataset.cacheFlag]

/-- C10 witness: the property holds on the concrete demo run. -/
theorem spec_C10_augmentations_witness :
    OkEnv demoEnv ∧
    ∃ evs tr, runScript demoEnv demoCLI = (evs, Except.ok tr) ∧
      Dataset.augm tr.train_dataset =
        some (demoEnv.configData (parse_args demoEnv.scriptDir demoCLI).config).learning_config.augmentations ∧
      Dataset.augm tr.eval_dataset = none ∧
      Dataset.shuffleFlag tr.train_dataset = true ∧
      Dataset.shuffleFlag tr.eval_dataset = true ∧
      Dataset.cacheFlag tr.train_dataset = demoCLI.cache ∧
      Dataset.cacheFlag tr.eval_dataset = demoCLI.cache :=
  ⟨fun _ => rfl, spec_C10_augmentations demoEnv demoCLI (fun _ => rfl)⟩
